import Mathlib

/-!
Verification development for the AICG_Shadertoy repository.

Part 1 models the scene encoder of `main.js` (`buildSceneData` together
with its inner `writePrimitive`).  The produced `ArrayBuffer` is modeled
as a list of 32-bit words (`List Nat`), one entry per four bytes, in
buffer order; `Uint32Array` stores reduce modulo `2 ^ 32`, and the float
fields of a primitive are modeled by the 32-bit patterns that the
`Float32Array` view stores, so a float store is the identity on the word.

Part 2 models the WGSL shader (`shader.wgsl`): the signed-distance
functions, `get_dist`, `ray_march`, `get_normal`, `fresnel`,
`refract_ray`, `get_sky`, `get_material_color` and the bounce loop of
`render`.  The f32 arithmetic of the GPU is modeled as exact rational
arithmetic; the two transcendental builtins that the modeled code uses,
`sqrt` (also inside `length` and `normalize`) and `exp`, are threaded
through as an explicit parameter record `Ops`, so every definition stays
computable and theorems quantify over the interpretation of those ops.
`pow` only occurs with the constant exponents 2, 5 and 128 and is
modeled by exact integer powers.
-/

set_option maxRecDepth 100000

-- ============ Definitions: the main.js scene encoder ============

namespace JS

/-- Three 32-bit words, as a JS `[x, y, z]` array of a primitive field. -/
structure Vec3N where
  x : Nat
  y : Nat
  z : Nat
deriving DecidableEq, Repr

/-- Four 32-bit words, as a JS `[x, y, z, w]` array of a primitive field. -/
structure Vec4N where
  x : Nat
  y : Nat
  z : Nat
  w : Nat
deriving DecidableEq, Repr

/-- A scene primitive as the editor of `main.js` holds it.  Float-valued
fields carry the 32-bit pattern that the typed-array store would put in
the buffer. -/
structure Primitive where
  kind : Nat
  materialId : Nat
  center : Vec3N
  param0 : Nat
  params1 : Vec4N
  params2 : Vec4N
deriving DecidableEq, Repr

def MAX_PRIMS : Nat := 16

def PRIMITIVE_SIZE : Nat := 48

def SCENE_HEADER_SIZE : Nat := 32

def SCENE_SIZE : Nat := SCENE_HEADER_SIZE + MAX_PRIMS * PRIMITIVE_SIZE

/-- Modulus of a `Uint32Array` store. -/
def W32 : Nat := 2 ^ 32

/-- The 12 words that `writePrimitive` stores for one primitive, in
buffer order: kind, materialId, two zero words, center.xyz, param0,
and the four words of params1.  (`writePrimitive` never touches
`params2`.) -/
def primRecord (p : Primitive) : List Nat :=
  [p.kind % W32, p.materialId % W32, 0, 0,
   p.center.x, p.center.y, p.center.z, p.param0,
   p.params1.x, p.params1.y, p.params1.z, p.params1.w]

/-- An untouched 48-byte record slot of the zero-initialized buffer. -/
def zeroRecord : List Nat := List.replicate 12 0

/-- Placeholder for the never-taken default of an in-bounds list read. -/
def defaultPrimitive : Primitive :=
  { kind := 0, materialId := 0, center := ⟨0, 0, 0⟩, param0 := 0,
    params1 := ⟨0, 0, 0, 0⟩, params2 := ⟨0, 0, 0, 0⟩ }

/-- `buildSceneData` of `main.js`: an 8-word header
`[count, 0, 0, 0, 0, 0, 0, 0]` followed by the 16 record slots; slot `i`
holds `primRecord` of the i-th primitive when `i < count` and stays at
its zero initialization otherwise, with `count = min length MAX_PRIMS`. -/
def buildSceneData (primitives : List Primitive) : List Nat :=
  let count := min primitives.length MAX_PRIMS
  [count, 0, 0, 0, 0, 0, 0, 0] ++
    ((List.range MAX_PRIMS).map
      (fun i =>
        if i < count then primRecord (primitives.getD i defaultPrimitive)
        else zeroRecord)).flatten

/-- The 12 words of record slot `i` of a scene buffer. -/
def recordWords (buf : List Nat) (i : Nat) : List Nat :=
  (buf.drop (8 + 12 * i)).take 12

/-- Word `j` of a scene buffer. -/
def wordAt (buf : List Nat) (j : Nat) : Nat := buf.getD j 0

/-- The record slot written for index `i` (branch of `buildSceneData`). -/
def slot (primitives : List Primitive) (count i : Nat) : List Nat :=
  if i < count then primRecord (primitives.getD i defaultPrimitive) else zeroRecord

end JS

/-- A concrete primitive used in the layout theorems. -/
def samplePrim : JS.Primitive :=
  { kind := 0, materialId := 1, center := ⟨10, 20, 30⟩, param0 := 40,
    params1 := ⟨50, 60, 70, 80⟩, params2 := ⟨90, 91, 92, 93⟩ }

/-- A primitive whose `params2` is nonzero. -/
def roundtripPrim : JS.Primitive :=
  { kind := 6, materialId := 4, center := ⟨1, 2, 3⟩, param0 := 4,
    params1 := ⟨5, 6, 7, 8⟩, params2 := ⟨9, 10, 11, 12⟩ }

/-- The same primitive with `params2` zeroed. -/
def roundtripPrimZ : JS.Primitive :=
  { kind := 6, materialId := 4, center := ⟨1, 2, 3⟩, param0 := 4,
    params1 := ⟨5, 6, 7, 8⟩, params2 := ⟨0, 0, 0, 0⟩ }

-- ============ Definitions: the WGSL shader ============

namespace WGSL

/-- A WGSL `vec2<f32>`, modeled with exact rational components. -/
structure Vec2 where
  x : ℚ
  y : ℚ
deriving DecidableEq, Repr

/-- A WGSL `vec3<f32>`, modeled with exact rational components. -/
structure Vec3 where
  x : ℚ
  y : ℚ
  z : ℚ
deriving DecidableEq, Repr

/-- A WGSL `vec4<f32>`, modeled with exact rational components. -/
structure Vec4 where
  x : ℚ
  y : ℚ
  z : ℚ
  w : ℚ
deriving DecidableEq, Repr

instance : Add Vec3 := ⟨fun a b => ⟨a.x + b.x, a.y + b.y, a.z + b.z⟩⟩

instance : Sub Vec3 := ⟨fun a b => ⟨a.x - b.x, a.y - b.y, a.z - b.z⟩⟩

instance : Neg Vec3 := ⟨fun a => ⟨-a.x, -a.y, -a.z⟩⟩

instance : Mul Vec3 := ⟨fun a b => ⟨a.x * b.x, a.y * b.y, a.z * b.z⟩⟩

instance : HMul Vec3 ℚ Vec3 := ⟨fun a c => ⟨a.x * c, a.y * c, a.z * c⟩⟩

instance : HMul ℚ Vec3 Vec3 := ⟨fun c a => ⟨c * a.x, c * a.y, c * a.z⟩⟩

instance : HDiv Vec3 ℚ Vec3 := ⟨fun a c => ⟨a.x / c, a.y / c, a.z / c⟩⟩

instance : Sub Vec2 := ⟨fun a b => ⟨a.x - b.x, a.y - b.y⟩⟩

def dot3 (a b : Vec3) : ℚ := a.x * b.x + a.y * b.y + a.z * b.z

def dot2 (a b : Vec2) : ℚ := a.x * b.x + a.y * b.y

/-- Componentwise `abs` of a `vec3`. -/
def abs3 (v : Vec3) : Vec3 := ⟨|v.x|, |v.y|, |v.z|⟩

/-- Componentwise `abs` of a `vec2`. -/
def abs2 (v : Vec2) : Vec2 := ⟨|v.x|, |v.y|⟩

/-- Componentwise `max` of two `vec3`s. -/
def max3 (a b : Vec3) : Vec3 := ⟨max a.x b.x, max a.y b.y, max a.z b.z⟩

/-- Componentwise `max` of two `vec2`s. -/
def max2 (a b : Vec2) : Vec2 := ⟨max a.x b.x, max a.y b.y⟩

/-- WGSL `clamp` on scalars. -/
def clamp (v lo hi : ℚ) : ℚ := min (max v lo) hi

/-- WGSL `mix(a, b, t) = a * (1 - t) + b * t` on `vec3`. -/
def mix3 (a b : Vec3) (t : ℚ) : Vec3 := a * (1 - t) + b * t

/-- WGSL `reflect(e, n) = e - 2 * dot(n, e) * n`. -/
def reflect (e n : Vec3) : Vec3 := e - (2 * dot3 n e) * n

/-- The `.xz` swizzle. -/
def xz (v : Vec3) : Vec2 := ⟨v.x, v.z⟩

/-- The two transcendental f32 builtins the modeled shader code uses,
threaded through as an explicit interpretation. -/
structure Ops where
  sqrt : ℚ → ℚ
  exp : ℚ → ℚ

/-- WGSL `length` on `vec3`: the square root of the self dot product. -/
def length3 (ops : Ops) (v : Vec3) : ℚ := ops.sqrt (dot3 v v)

/-- WGSL `length` on `vec2`. -/
def length2 (ops : Ops) (v : Vec2) : ℚ := ops.sqrt (dot2 v v)

/-- WGSL `normalize(v) = v / length(v)`. -/
def normalize3 (ops : Ops) (v : Vec3) : Vec3 := v / length3 ops v

-- Constants of the shader.

def MAX_DIST : ℚ := 100.0

def SURF_DIST : ℚ := 0.0001

def MAX_STEPS : Nat := 256

def MAX_BOUNCES : Nat := 16

def IOR_AIR : ℚ := 1.0

def IOR_GLASS : ℚ := 1.5

def IOR_WATER : ℚ := 1.33

def MAT_GROUND : ℚ := 0.0

def MAT_METAL : ℚ := 1.0

def MAT_GLASS : ℚ := 2.0

def MAT_WATER : ℚ := 3.0

def MAT_DIFFUSE : ℚ := 4.0

/-- `get_material_color` of the shader. -/
def get_material_color (mat_id : ℚ) (p : Vec3) : Vec3 :=
  if mat_id = MAT_GROUND then
    let checker : ℤ := ⌊p.x⌋ + ⌊p.z⌋
    let col1 : Vec3 := ⟨0.9, 0.9, 0.9⟩
    let col2 : Vec3 := ⟨0.2, 0.2, 0.2⟩
    if checker % 2 = 0 then col1 else col2
  else if mat_id = MAT_METAL then ⟨0.8, 0.85, 0.9⟩
  else if mat_id = MAT_GLASS then ⟨0.9, 0.9, 1.0⟩
  else if mat_id = MAT_WATER then ⟨0.8, 0.9, 1.0⟩
  else if mat_id = MAT_DIFFUSE then ⟨1.0, 0.5, 0.3⟩
  else ⟨0.5, 0.5, 0.5⟩

/-- A shader-side primitive record: `header.x` is the kind, `header.y`
the material id, `center` and `param0` are the parts of
`center_param0`, and `params1` and `params2` the extra groups. -/
structure Primitive where
  kind : Nat
  materialId : Nat
  center : Vec3
  param0 : ℚ
  params1 : Vec4
  params2 : Vec4
deriving DecidableEq, Repr

/-- The `.xyz` swizzle of a `vec4`. -/
def Vec4.xyz (v : Vec4) : Vec3 := ⟨v.x, v.y, v.z⟩

def sd_sphere (ops : Ops) (p : Vec3) (s : Primitive) : ℚ :=
  length3 ops (p - s.center) - s.param0

def sd_plane (ops : Ops) (p : Vec3) (pl : Primitive) : ℚ :=
  let n := normalize3 ops pl.params1.xyz
  let h := pl.param0
  dot3 p n + h

def sd_box (ops : Ops) (p : Vec3) (b : Primitive) : ℚ :=
  let c := b.center
  let half_size := b.params1.xyz
  let q := abs3 (p - c) - half_size
  length3 ops (max3 q ⟨0, 0, 0⟩) + min (max q.x (max q.y q.z)) 0

def sd_rounded_box (ops : Ops) (p : Vec3) (rb : Primitive) : ℚ :=
  let c := rb.center
  let half_size := rb.params1.xyz
  let r := rb.param0
  let q := abs3 (p - c) - half_size
  length3 ops (max3 q ⟨0, 0, 0⟩) + min (max q.x (max q.y q.z)) 0 - r

def sd_cylinder (ops : Ops) (p : Vec3) (cy : Primitive) : ℚ :=
  let c := cy.center
  let radius := cy.params1.x
  let height := cy.param0
  let q := abs2 ⟨length2 ops (xz p - xz c), p.y - c.y⟩ - ⟨radius, height * 0.5⟩
  min (max q.x q.y) 0 + length2 ops (max2 q ⟨0, 0⟩)

def sd_torus (ops : Ops) (p : Vec3) (t : Primitive) : ℚ :=
  let c := t.center
  let R := t.param0
  let r := t.params1.x
  let q : Vec2 := ⟨length2 ops (xz p - xz c) - R, p.y - c.y⟩
  length2 ops q - r

def sd_capsule (ops : Ops) (p : Vec3) (c : Primitive) : ℚ :=
  let a := c.params1.xyz
  let b := c.params2.xyz
  let radius := c.param0
  let pa := p - a
  let ba := b - a
  let h := clamp (dot3 pa ba / dot3 ba ba) 0 1
  length3 ops (pa - ba * h) - radius

/-- `sd_primitive`: dispatch on `header.x`; unknown kinds fall back to
the sentinel distance `1e6`. -/
def sd_primitive (ops : Ops) (p : Vec3) (prim : Primitive) : ℚ :=
  match prim.kind with
  | 0 => sd_sphere ops p prim
  | 1 => sd_plane ops p prim
  | 2 => sd_box ops p prim
  | 3 => sd_rounded_box ops p prim
  | 4 => sd_cylinder ops p prim
  | 5 => sd_torus ops p prim
  | 6 => sd_capsule ops p prim
  | _ => 1000000

def MAX_PRIMS : Nat := 16

/-- The scene uniform: a count and the primitive array. -/
structure Scene where
  count : Nat
  primitives : List Primitive

/-- The body of the `get_dist` loop, folded over the scanned
primitives: replace the running best only on strict improvement. -/
def get_dist_list (ops : Ops) (l : List Primitive) (p : Vec3) : ℚ × ℚ :=
  l.foldl
    (fun res prim =>
      let dist := sd_primitive ops p prim
      if dist < res.1 then (dist, (prim.materialId : ℚ)) else res)
    (MAX_DIST, -1)

/-- `get_dist`: scan primitives `0 .. count-1` in order. -/
def get_dist (ops : Ops) (s : Scene) (p : Vec3) : ℚ × ℚ :=
  get_dist_list ops (s.primitives.take s.count) p

/-- The `ray_march` loop with explicit fuel.  The returned number is
how many times the loop body ran, which is how many `get_dist`
evaluations this march performed. -/
def ray_march_loop (ops : Ops) (s : Scene) (ro rd : Vec3) :
    Nat → ℚ × ℚ → (ℚ × ℚ) × Nat
  | 0, st => (st, 0)
  | Nat.succ n, st =>
    let p := ro + rd * st.1
    let dist_mat := get_dist ops s p
    let q := st.1 + |dist_mat.1|
    let mat_id := dist_mat.2
    if |dist_mat.1| < SURF_DIST ∨ q > MAX_DIST then ((q, mat_id), 1)
    else
      let r := ray_march_loop ops s ro rd n (q, mat_id)
      (r.1, r.2 + 1)

/-- `ray_march` together with its `get_dist` evaluation count. -/
def ray_marchC (ops : Ops) (s : Scene) (ro rd : Vec3) : (ℚ × ℚ) × Nat :=
  ray_march_loop ops s ro rd MAX_STEPS (0, -1)

/-- `ray_march`: returns traveled distance and last material id. -/
def ray_march (ops : Ops) (s : Scene) (ro rd : Vec3) : ℚ × ℚ :=
  (ray_marchC ops s ro rd).1

/-- `get_normal`: central differences with step `1e-4`; performs six
`get_dist` evaluations. -/
def get_normal (ops : Ops) (s : Scene) (p : Vec3) : Vec3 :=
  let e : ℚ := 0.0001
  let n : Vec3 :=
    ⟨(get_dist ops s (p + ⟨e, 0, 0⟩)).1 - (get_dist ops s (p - ⟨e, 0, 0⟩)).1,
     (get_dist ops s (p + ⟨0, e, 0⟩)).1 - (get_dist ops s (p - ⟨0, e, 0⟩)).1,
     (get_dist ops s (p + ⟨0, 0, e⟩)).1 - (get_dist ops s (p - ⟨0, 0, e⟩)).1⟩
  normalize3 ops n

/-- Schlick Fresnel; `pow` at the constant exponents 2 and 5 is modeled
by exact powers. -/
def fresnel (cos_theta ior_ratio : ℚ) : ℚ :=
  let r0 := ((1 - ior_ratio) / (1 + ior_ratio)) ^ 2
  r0 + (1 - r0) * (1 - cos_theta) ^ 5

/-- `refract_ray`: returns the zero vector on total internal
reflection. -/
def refract_ray (ops : Ops) (incident normal : Vec3) (ior_ratio : ℚ) : Vec3 :=
  let cos_i := -dot3 incident normal
  let sin2_t := ior_ratio * ior_ratio * (1 - cos_i * cos_i)
  if sin2_t > 1 then ⟨0, 0, 0⟩
  else
    let cos_t := ops.sqrt (1 - sin2_t)
    ior_ratio * incident + (ior_ratio * cos_i - cos_t) * normal

/-- `get_sky`: gradient plus sun term (`pow` at exponent 128 modeled by
an exact power). -/
def get_sky (ops : Ops) (rd : Vec3) : Vec3 :=
  let sun_dir := normalize3 ops ⟨1.0, 0.5, -0.5⟩
  let sun : ℚ := (max (dot3 rd sun_dir) 0) ^ 128 * 2
  let sky := mix3 ⟨0.5, 0.7, 0.9⟩ ⟨0.2, 0.4, 0.7⟩ (rd.y * 0.5 + 0.5)
  sky + (⟨1.0, 0.9, 0.7⟩ : Vec3) * sun

/-- The per-pixel state of the bounce loop of `render`.  `broke` records
that a `break` was executed: further iterations leave the state
unchanged. -/
structure RenderState where
  ro : Vec3
  rd : Vec3
  color : Vec3
  mask : Vec3
  result : ℚ × ℚ
  broke : Bool
deriving DecidableEq, Repr

/-- One iteration of the bounce loop of `render`, together with the
number of `get_dist` evaluations it performs (its primary ray march,
plus, on a hit, six normal evaluations and the shadow ray march). -/
def renderStepC (ops : Ops) (s : Scene) (st : RenderState) : RenderState × Nat :=
  if st.broke then (st, 0) else
  let rm := ray_marchC ops s st.ro st.rd
  let result := rm.1
  if result.1 < MAX_DIST then
    let hit_pos := st.ro + st.rd * result.1
    let normal := get_normal ops s hit_pos
    let mat_id := result.2
    let albedo := get_material_color mat_id hit_pos
    let light_pos : Vec3 := ⟨5.0, 8.0, -5.0⟩
    let light_dir := normalize3 ops (light_pos - hit_pos)
    let diffuse := max (dot3 normal light_dir) 0
    let shadow_origin := hit_pos + normal * (0.01 : ℚ)
    let srm := ray_marchC ops s shadow_origin light_dir
    let shadow_result := srm.1
    let shadow : ℚ :=
      if shadow_result.1 > length3 ops (light_pos - shadow_origin) then 1.0 else 0.3
    let evals := rm.2 + 6 + srm.2
    let st2 : RenderState :=
      if mat_id = MAT_METAL then
        let color := st.color + st.mask * albedo * diffuse * shadow * (0.2 : ℚ)
        let rd2 := reflect st.rd normal
        let ro2 := hit_pos + normal * (0.01 : ℚ)
        let mask2 := st.mask * (0.8 : ℚ)
        { ro := ro2
          rd := rd2
          color := color
          mask := mask2
          result := result
          broke := decide (dot3 mask2 mask2 < 0.001) }
      else if mat_id = MAT_GLASS ∨ mat_id = MAT_WATER then
        let entering := dot3 st.rd normal < 0
        let n := if entering then normal else -normal
        let ior := if mat_id = MAT_GLASS then IOR_GLASS else IOR_WATER
        let ior_ratio := if entering then IOR_AIR / ior else ior / IOR_AIR
        let cos_theta := min (-dot3 st.rd n) 1
        let fresnel_val := fresnel cos_theta ior_ratio
        let reflect_dir := reflect st.rd n
        let reflect_origin := hit_pos + n * (0.01 : ℚ)
        let refract_dir_potential := refract_ray ops st.rd n ior_ratio
        let is_tir := dot3 refract_dir_potential refract_dir_potential < 0.0001
        let color := st.color + st.mask * fresnel_val * get_sky ops reflect_dir
        if is_tir then
          let mask2 := st.mask * albedo
          { ro := reflect_origin
            rd := reflect_dir
            color := color
            mask := mask2
            result := result
            broke := decide (dot3 mask2 mask2 < 0.001) }
        else
          let refract_origin := hit_pos - n * (0.01 : ℚ)
          let mask2 := st.mask * ((1 - fresnel_val) * albedo)
          { ro := refract_origin
            rd := refract_dir_potential
            color := color
            mask := mask2
            result := result
            broke := decide (dot3 mask2 mask2 < 0.001) }
      else
        let ambient : ℚ := 0.2
        let color := st.color + st.mask * albedo * (ambient + diffuse * shadow * 0.8)
        { st with
          color := color
          mask := ⟨0, 0, 0⟩
          result := result
          broke := true }
    (st2, evals)
  else
    ({ st with
        color := st.color + st.mask * get_sky ops st.rd
        mask := ⟨0, 0, 0⟩
        result := result
        broke := true }, rm.2)

/-- The bounce loop of `render`, with fuel and evaluation count. -/
def renderLoopC (ops : Ops) (s : Scene) : Nat → RenderState → RenderState × Nat
  | 0, st => (st, 0)
  | Nat.succ n, st =>
    let r1 := renderStepC ops s st
    let r2 := renderLoopC ops s n r1.1
    (r2.1, r1.2 + r2.2)

/-- `render`: the full per-pixel evaluation, returning the final color
and the total number of `get_dist` evaluations. -/
def render (ops : Ops) (s : Scene) (initial_ro initial_rd : Vec3) : Vec3 × Nat :=
  let st0 : RenderState :=
    { ro := initial_ro, rd := initial_rd, color := ⟨0, 0, 0⟩, mask := ⟨1, 1, 1⟩,
      result := (0, -1), broke := false }
  let r := renderLoopC ops s MAX_BOUNCES st0
  let st := r.1
  let color :=
    if dot3 st.mask st.mask > 0.001 then st.color + st.mask * get_sky ops st.rd
    else st.color
  let fog := ops.exp (-st.result.1 * 0.02)
  (mix3 (get_sky ops st.rd) color fog, r.2)

/-- Spec-side description of `get_dist` for C5 (worded from the claim):
the minimum distance over the scanned primitives together with the
material of the first primitive attaining it, with the running best
started at `(MAX_DIST, -1)`. -/
def get_dist_minSpec (ops : Ops) (l : List Primitive) (p : Vec3) : ℚ × ℚ :=
  let minD := (l.map (sd_primitive ops p)).foldl min MAX_DIST
  match l.find? (fun prim => decide (sd_primitive ops p prim = minD)) with
  | some prim => if minD < MAX_DIST then (minD, (prim.materialId : ℚ)) else (MAX_DIST, -1)
  | none => (MAX_DIST, -1)

/-- The fixed point light of `render`. -/
def lightPos : Vec3 := ⟨5.0, 8.0, -5.0⟩

/-- The primary ray-march result of a bounce. -/
def hitResult (ops : Ops) (s : Scene) (st : RenderState) : ℚ × ℚ :=
  (ray_marchC ops s st.ro st.rd).1

/-- The hit point of a bounce. -/
def hitPos (ops : Ops) (s : Scene) (st : RenderState) : Vec3 :=
  st.ro + st.rd * (hitResult ops s st).1

/-- The estimated normal at the hit point. -/
def hitNormal (ops : Ops) (s : Scene) (st : RenderState) : Vec3 :=
  get_normal ops s (hitPos ops s st)

/-- The light direction at the hit point. -/
def lightDir (ops : Ops) (s : Scene) (st : RenderState) : Vec3 :=
  normalize3 ops (lightPos - hitPos ops s st)

/-- The material color sampled at the hit point. -/
def hitAlbedo (ops : Ops) (s : Scene) (st : RenderState) : Vec3 :=
  get_material_color (hitResult ops s st).2 (hitPos ops s st)

/-- The diffuse term at the hit point. -/
def hitDiffuse (ops : Ops) (s : Scene) (st : RenderState) : ℚ :=
  max (dot3 (hitNormal ops s st) (lightDir ops s st)) 0

/-- The biased origin of the shadow ray. -/
def shadowOrigin (ops : Ops) (s : Scene) (st : RenderState) : Vec3 :=
  hitPos ops s st + hitNormal ops s st * (0.01 : ℚ)

/-- The shadow ray march of a bounce. -/
def shadowMarch (ops : Ops) (s : Scene) (st : RenderState) : (ℚ × ℚ) × Nat :=
  ray_marchC ops s (shadowOrigin ops s st) (lightDir ops s st)

/-- The binary shadow factor of a bounce. -/
def hitShadow (ops : Ops) (s : Scene) (st : RenderState) : ℚ :=
  if (shadowMarch ops s st).1.1 > length3 ops (lightPos - shadowOrigin ops s st)
  then 1.0 else 0.3

/-- Componentwise membership of a `vec3` in the unit cube. -/
def inUnit (v : Vec3) : Prop :=
  0 ≤ v.x ∧ v.x ≤ 1 ∧ 0 ≤ v.y ∧ v.y ≤ 1 ∧ 0 ≤ v.z ∧ v.z ≤ 1

/-- Componentwise order on `vec3`. -/
def le3 (u v : Vec3) : Prop := u.x ≤ v.x ∧ u.y ≤ v.y ∧ u.z ≤ v.z

end WGSL

/-- The interpretation of the transcendental ops in the C4
counterexample: the square root is the constant `1/100`, so every
scene-distance evaluation returns `1/100`. -/
def cexOps : WGSL.Ops := { sqrt := fun _ => 1 / 100, exp := fun _ => 0 }

/-- A metal sphere of radius zero at the origin. -/
def cexSphere : WGSL.Primitive :=
  { kind := 0, materialId := 1, center := ⟨0, 0, 0⟩, param0 := 0,
    params1 := ⟨0, 0, 0, 0⟩, params2 := ⟨0, 0, 0, 0⟩ }

/-- The one-sphere scene of the C4 counterexample. -/
def cexScene : WGSL.Scene := { count := 1, primitives := [cexSphere] }

-- ============ Concrete inputs used by witnesses and counterexamples ============

/-- Constant-distance ops for the C5 counterexample: every scanned
primitive lies at distance 200. -/
def cex5Ops : WGSL.Ops := { sqrt := fun _ => 200, exp := fun _ => 0 }

/-- A diffuse sphere of radius zero at the origin. -/
def cex5Prim : WGSL.Primitive :=
  { kind := 0, materialId := 4, center := ⟨0, 0, 0⟩, param0 := 0,
    params1 := ⟨0, 0, 0, 0⟩, params2 := ⟨0, 0, 0, 0⟩ }

/-- The one-primitive scene of the C5 counterexample. -/
def cex5Scene : WGSL.Scene := { count := 1, primitives := [cex5Prim] }

/-- Zero-distance ops: the camera ray hits immediately. -/
def c6Ops : WGSL.Ops := { sqrt := fun _ => 0, exp := fun _ => 0 }

/-- A ground-material sphere of radius zero at the origin. -/
def c6Prim : WGSL.Primitive :=
  { kind := 0, materialId := 0, center := ⟨0, 0, 0⟩, param0 := 0,
    params1 := ⟨0, 0, 0, 0⟩, params2 := ⟨0, 0, 0, 0⟩ }

/-- The one-primitive scene of the C6 witness. -/
def c6Scene : WGSL.Scene := { count := 1, primitives := [c6Prim] }

/-- The bounce-loop state at the start of the first bounce of the C6
witness pixel. -/
def c6State : WGSL.RenderState :=
  { ro := ⟨0, 0, 5⟩, rd := ⟨0, 0, -1⟩, color := ⟨0, 0, 0⟩, mask := ⟨1, 1, 1⟩,
    result := (0, -1), broke := false }

/-- Unit-distance ops for the C8 witness. -/
def c8Ops : WGSL.Ops := { sqrt := fun _ => 1, exp := fun _ => 0 }

/-- A primitive with the unhandled kind 9. -/
def c8UnknownPrim : WGSL.Primitive :=
  { kind := 9, materialId := 2, center := ⟨0, 0, 0⟩, param0 := 0,
    params1 := ⟨0, 0, 0, 0⟩, params2 := ⟨0, 0, 0, 0⟩ }

/-- A known-kind companion primitive for the C8 witness. -/
def c8KnownPrim : WGSL.Primitive :=
  { kind := 0, materialId := 4, center := ⟨0, 0, 0⟩, param0 := 0,
    params1 := ⟨0, 0, 0, 0⟩, params2 := ⟨0, 0, 0, 0⟩ }

/-- Zero-distance ops for the C10 witness. -/
def c10Ops : WGSL.Ops := { sqrt := fun _ => 0, exp := fun _ => 0 }

/-- A ground-material sphere of radius zero at the origin, for C10. -/
def c10Prim : WGSL.Primitive :=
  { kind := 0, materialId := 0, center := ⟨0, 0, 0⟩, param0 := 0,
    params1 := ⟨0, 0, 0, 0⟩, params2 := ⟨0, 0, 0, 0⟩ }

/-- The one-primitive scene of the C10 witness. -/
def c10Scene : WGSL.Scene := { count := 1, primitives := [c10Prim] }

/-- A bounce-loop state with mask `(1, 1/2, 0)` for the C10 witness. -/
def c10State : WGSL.RenderState :=
  { ro := ⟨0, 0, 5⟩, rd := ⟨0, 0, -1⟩, color := ⟨0, 0, 0⟩,
    mask := ⟨1, 1/2, 0⟩, result := (0, -1), broke := false }

-- ============ Lemmas: the scene encoder ============

namespace JS

lemma slot_length (primitives : List Primitive) (count i : Nat) :
    (slot primitives count i).length = 12 := by
  unfold slot
  split <;> rfl

lemma flatten_map_range'_chunk (g : Nat → List Nat) (hg : ∀ i, (g i).length = 12) :
    ∀ (n s i : Nat), i < n →
      ((((List.range' s n).map g).flatten.drop (12 * i)).take 12) = g (s + i) := by
  intro n
  induction n with
  | zero => intro s i h; omega
  | succ m ih =>
    intro s i h
    rw [List.range'_succ, List.map_cons, List.flatten_cons]
    cases i with
    | zero =>
      simpa using List.take_left' (hg s)
    | succ j =>
      have h12 : 12 * (j + 1) = (g s).length + 12 * j := by rw [hg s]; ring
      rw [h12, List.drop_append]
      have := ih (s + 1) j (by omega)
      rw [this]
      congr 1
      omega

lemma buildSceneData_eq (primitives : List Primitive) :
    buildSceneData primitives =
      [min primitives.length MAX_PRIMS, 0, 0, 0, 0, 0, 0, 0] ++
        ((List.range MAX_PRIMS).map
          (slot primitives (min primitives.length MAX_PRIMS))).flatten := rfl

lemma recordWords_buildSceneData (primitives : List Primitive) (i : Nat)
    (h : i < MAX_PRIMS) :
    recordWords (buildSceneData primitives) i =
      slot primitives (min primitives.length MAX_PRIMS) i := by
  rw [buildSceneData_eq]
  unfold recordWords
  have h8 : (8 : Nat) + 12 * i =
      ([min primitives.length MAX_PRIMS, 0, 0, 0, 0, 0, 0, 0] : List Nat).length + 12 * i := by
    simp
  rw [h8, List.drop_append, List.range_eq_range']
  have := flatten_map_range'_chunk
    (slot primitives (min primitives.length MAX_PRIMS))
    (slot_length primitives (min primitives.length MAX_PRIMS))
    MAX_PRIMS 0 i h
  simpa using this

lemma length_buildSceneData (primitives : List Primitive) :
    (buildSceneData primitives).length = 200 := by
  rw [buildSceneData_eq]
  rw [List.length_append, List.length_flatten]
  have hmap : ((List.range MAX_PRIMS).map
      (slot primitives (min primitives.length MAX_PRIMS))).map List.length =
      (List.range MAX_PRIMS).map (fun _ => 12) := by
    rw [List.map_map]
    exact List.map_congr_left (fun i _ => slot_length primitives _ i)
  rw [hmap]
  have h2 : (List.map (fun _ => (12 : Nat)) (List.range MAX_PRIMS)).sum = 192 := by decide
  rw [h2]
  simp

end JS

lemma getD_take (l : List JS.Primitive) (n i : Nat) (d : JS.Primitive) (h : i < n) :
    (l.take n).getD i d = l.getD i d := by
  simp [List.getD, List.getElem?_take, h]

-- ============ Lemmas: the shader ============

namespace WGSL

@[simp] lemma Vec3.add_x (a b : Vec3) : (a + b).x = a.x + b.x := rfl

@[simp] lemma Vec3.add_y (a b : Vec3) : (a + b).y = a.y + b.y := rfl

@[simp] lemma Vec3.add_z (a b : Vec3) : (a + b).z = a.z + b.z := rfl

@[simp] lemma Vec3.sub_x (a b : Vec3) : (a - b).x = a.x - b.x := rfl

@[simp] lemma Vec3.sub_y (a b : Vec3) : (a - b).y = a.y - b.y := rfl

@[simp] lemma Vec3.sub_z (a b : Vec3) : (a - b).z = a.z - b.z := rfl

@[simp] lemma Vec3.mul_x (a b : Vec3) : (a * b).x = a.x * b.x := rfl

@[simp] lemma Vec3.mul_y (a b : Vec3) : (a * b).y = a.y * b.y := rfl

@[simp] lemma Vec3.mul_z (a b : Vec3) : (a * b).z = a.z * b.z := rfl

@[simp] lemma Vec3.smulr_x (a : Vec3) (c : ℚ) : (a * c).x = a.x * c := rfl

@[simp] lemma Vec3.smulr_y (a : Vec3) (c : ℚ) : (a * c).y = a.y * c := rfl

@[simp] lemma Vec3.smulr_z (a : Vec3) (c : ℚ) : (a * c).z = a.z * c := rfl

@[simp] lemma Vec3.smull_x (a : Vec3) (c : ℚ) : (c * a).x = c * a.x := rfl

@[simp] lemma Vec3.smull_y (a : Vec3) (c : ℚ) : (c * a).y = c * a.y := rfl

@[simp] lemma Vec3.smull_z (a : Vec3) (c : ℚ) : (c * a).z = c * a.z := rfl

lemma ray_march_loop_count_le (ops : Ops) (s : Scene) (ro rd : Vec3) :
    ∀ (fuel : Nat) (st : ℚ × ℚ), (ray_march_loop ops s ro rd fuel st).2 ≤ fuel := by
  intro fuel
  induction fuel with
  | zero => intro st; simp [ray_march_loop]
  | succ n ih =>
    intro st
    unfold ray_march_loop
    dsimp only
    split
    · omega
    · have h := ih (st.1 + |(get_dist ops s (ro + rd * st.1)).1|,
        (get_dist ops s (ro + rd * st.1)).2)
      omega

lemma ray_marchC_count_le (ops : Ops) (s : Scene) (ro rd : Vec3) :
    (ray_marchC ops s ro rd).2 ≤ MAX_STEPS :=
  ray_march_loop_count_le ops s ro rd MAX_STEPS (0, -1)

lemma renderStepC_count_le (ops : Ops) (s : Scene) (st : RenderState) :
    (renderStepC ops s st).2 ≤ 2 * MAX_STEPS + 6 := by
  unfold renderStepC
  split
  · simp
  · dsimp only
    split
    · dsimp only
      refine Nat.le_trans
        (Nat.add_le_add
          (Nat.add_le_add_right (ray_marchC_count_le ops s _ _) 6)
          (ray_marchC_count_le ops s _ _)) ?_
      norm_num [MAX_STEPS]
    · dsimp only
      refine Nat.le_trans (ray_marchC_count_le ops s _ _) ?_
      norm_num [MAX_STEPS]

lemma renderLoopC_count_le (ops : Ops) (s : Scene) :
    ∀ (fuel : Nat) (st : RenderState),
      (renderLoopC ops s fuel st).2 ≤ fuel * (2 * MAX_STEPS + 6) := by
  intro fuel
  induction fuel with
  | zero => intro st; simp [renderLoopC]
  | succ n ih =>
    intro st
    unfold renderLoopC
    dsimp only
    have h1 := renderStepC_count_le ops s st
    have h2 := ih (renderStepC ops s st).1
    have h3 : (2 * MAX_STEPS + 6) + n * (2 * MAX_STEPS + 6) =
        (n + 1) * (2 * MAX_STEPS + 6) := by ring
    omega

lemma foldl_min_le (l : List ℚ) : ∀ a : ℚ, l.foldl min a ≤ a := by
  induction l with
  | nil => intro a; simp
  | cons x t ih =>
    intro a
    calc (x :: t).foldl min a = t.foldl min (min a x) := rfl
    _ ≤ min a x := ih (min a x)
    _ ≤ a := min_le_left a x

lemma foldl_min_mem (l : List ℚ) : ∀ a : ℚ, l.foldl min a = a ∨ l.foldl min a ∈ l := by
  induction l with
  | nil => intro a; simp
  | cons x t ih =>
    intro a
    rcases ih (min a x) with h | h
    · rcases le_total a x with hax | hax
      · left
        calc (x :: t).foldl min a = t.foldl min (min a x) := rfl
        _ = min a x := h
        _ = a := min_eq_left hax
      · right
        have : (x :: t).foldl min a = x := by
          calc (x :: t).foldl min a = t.foldl min (min a x) := rfl
          _ = min a x := h
          _ = x := min_eq_right hax
        rw [this]
        exact List.mem_cons_self x t
    · right
      have : (x :: t).foldl min a ∈ t := h
      exact List.mem_cons_of_mem x this

lemma foldl_best_eq (f : Primitive → ℚ) (mt : Primitive → ℚ) :
    ∀ (l : List Primitive) (r : ℚ × ℚ),
      List.foldl (fun res prim => if f prim < res.1 then (f prim, mt prim) else res) r l =
      (match l.find? (fun prim => decide (f prim = (l.map f).foldl min r.1)) with
       | some prim =>
           if (l.map f).foldl min r.1 < r.1
           then ((l.map f).foldl min r.1, mt prim) else r
       | none => r) := by
  intro l
  induction l with
  | nil => intro r; simp
  | cons q t ih =>
    intro r
    rw [List.foldl_cons]
    by_cases hq : f q < r.1
    · rw [if_pos hq]
      rw [ih (f q, mt q)]
      dsimp only
      have hmin : min r.1 (f q) = f q := min_eq_right (le_of_lt hq)
      have hM : ((q :: t).map f).foldl min r.1 = (t.map f).foldl min (f q) := by
        rw [List.map_cons, List.foldl_cons, hmin]
      rw [hM]
      have hmle : (t.map f).foldl min (f q) ≤ f q := foldl_min_le _ _
      by_cases hqm : f q = (t.map f).foldl min (f q)
      · rw [List.find?_cons_of_pos _ (by simpa using hqm)]
        dsimp only
        rw [if_pos (by rw [← hqm]; exact hq)]
        cases hfind : t.find? (fun prim => decide (f prim = (t.map f).foldl min (f q))) with
        | none => rw [← hqm]
        | some prim1 =>
          dsimp only
          rw [if_neg (by rw [← hqm]; exact lt_irrefl (f q)), ← hqm]
      · have hmlt : (t.map f).foldl min (f q) < f q :=
          lt_of_le_of_ne hmle (fun h => hqm h.symm)
        rw [List.find?_cons_of_neg _ (by simpa using hqm)]
        rcases foldl_min_mem (t.map f) (f q) with h | h
        · exact absurd (h ▸ hmlt) (lt_irrefl _)
        · obtain ⟨prim0, hprim0, hfp⟩ := List.mem_map.mp h
          have hsome : (t.find? (fun prim =>
              decide (f prim = (t.map f).foldl min (f q)))).isSome := by
            rw [List.find?_isSome]
            exact ⟨prim0, hprim0, by simpa using hfp⟩
          obtain ⟨prim1, hfind⟩ := Option.isSome_iff_exists.mp hsome
          rw [hfind]
          dsimp only
          rw [if_pos hmlt, if_pos (lt_trans hmlt hq)]
    · rw [if_neg hq]
      rw [ih r]
      have hmin : min r.1 (f q) = r.1 := min_eq_left (le_of_not_lt hq)
      have hM : ((q :: t).map f).foldl min r.1 = (t.map f).foldl min r.1 := by
        rw [List.map_cons, List.foldl_cons, hmin]
      rw [hM]
      have hmle : (t.map f).foldl min r.1 ≤ r.1 := foldl_min_le _ _
      by_cases hpq : f q = (t.map f).foldl min r.1
      · have h1 : (t.map f).foldl min r.1 = r.1 :=
          le_antisymm hmle (hpq ▸ le_of_not_lt hq)
        rw [List.find?_cons_of_pos _ (by simpa using hpq)]
        dsimp only
        rw [if_neg (by rw [h1]; exact lt_irrefl _)]
        cases hfind : t.find? (fun prim =>
            decide (f prim = (t.map f).foldl min r.1)) with
        | none => rfl
        | some prim1 =>
          dsimp only
          rw [if_neg (by rw [h1]; exact lt_irrefl r.1)]
      · rw [List.find?_cons_of_neg _ (by simpa using hpq)]

lemma get_dist_list_eq_minSpec (ops : Ops) (l : List Primitive) (p : Vec3) :
    get_dist_list ops l p = get_dist_minSpec ops l p :=
  foldl_best_eq (sd_primitive ops p) (fun prim => (prim.materialId : ℚ)) l (MAX_DIST, -1)

lemma sd_primitive_unknown (ops : Ops) (p : Vec3) (prim : Primitive)
    (h : 6 < prim.kind) : sd_primitive ops p prim = 1000000 := by
  obtain ⟨k, m, c, p0, p1, p2⟩ := prim
  simp only at h
  obtain ⟨n, hn⟩ : ∃ n, k = n + 7 := ⟨k - 7, by omega⟩
  subst hn
  rfl

lemma get_dist_fold_filter_known (ops : Ops) (p : Vec3) :
    ∀ (l : List Primitive) (r : ℚ × ℚ), r.1 ≤ MAX_DIST →
      List.foldl
        (fun res prim =>
          let dist := sd_primitive ops p prim
          if dist < res.1 then (dist, (prim.materialId : ℚ)) else res)
        r (l.filter (fun prim => decide (prim.kind ≤ 6))) =
      List.foldl
        (fun res prim =>
          let dist := sd_primitive ops p prim
          if dist < res.1 then (dist, (prim.materialId : ℚ)) else res)
        r l := by
  intro l
  induction l with
  | nil => intro r _; rfl
  | cons q t ih =>
    intro r hr
    by_cases hk : q.kind ≤ 6
    · rw [List.filter_cons_of_pos (by simpa using hk), List.foldl_cons, List.foldl_cons]
      apply ih
      dsimp only
      split
      · next hlt => exact le_trans (le_of_lt hlt) hr
      · exact hr
    · rw [List.filter_cons_of_neg (by simpa using hk), List.foldl_cons]
      have h6 : 6 < q.kind := by omega
      have h1 : sd_primitive ops p q = 1000000 := sd_primitive_unknown ops p q h6
      simp only [h1]
      have h2 : ¬ ((1000000 : ℚ) < r.1) := by
        unfold MAX_DIST at hr
        intro hcon
        norm_num at hr
        linarith
      rw [if_neg h2]
      exact ih r hr

lemma get_dist_list_filter_known (ops : Ops) (l : List Primitive) (p : Vec3) :
    get_dist_list ops (l.filter (fun prim => decide (prim.kind ≤ 6))) p =
      get_dist_list ops l p := by
  unfold get_dist_list
  exact get_dist_fold_filter_known ops p l (MAX_DIST, -1) le_rfl

lemma renderLoopC_broke (ops : Ops) (s : Scene) :
    ∀ (n : Nat) (st : RenderState), st.broke = true →
      renderLoopC ops s n st = (st, 0) := by
  intro n
  induction n with
  | zero => intro st _; rfl
  | succ m ih =>
    intro st hb
    unfold renderLoopC
    have hstep : renderStepC ops s st = (st, 0) := by
      unfold renderStepC
      rw [if_pos hb]
    rw [hstep]
    dsimp only
    rw [ih st hb]
    simp

lemma get_material_color_inUnit (m : ℚ) (p : Vec3) :
    inUnit (get_material_color m p) := by
  unfold get_material_color inUnit
  dsimp only
  split_ifs <;> norm_num

lemma fresnel_bounds (c r : ℚ) (hc0 : 0 ≤ c) (hc1 : c ≤ 1)
    (hr : ((1 - r) / (1 + r)) ^ 2 ≤ 1) :
    0 ≤ fresnel c r ∧ fresnel c r ≤ 1 := by
  unfold fresnel
  dsimp only
  have h1 : 0 ≤ ((1 - r) / (1 + r)) ^ 2 := sq_nonneg _
  have h2 : 0 ≤ (1 - c) ^ 5 := pow_nonneg (by linarith) 5
  have h3 : (1 - c) ^ 5 ≤ 1 := pow_le_one₀ (by linarith) (by linarith)
  constructor <;> nlinarith

lemma dot3_neg_right (a b : Vec3) : dot3 a (-b) = -dot3 a b := by
  unfold dot3
  show a.x * (-b.x) + a.y * (-b.y) + a.z * (-b.z) = _
  ring

lemma unit_mul_le (m t : ℚ) (hm0 : 0 ≤ m) (hm1 : m ≤ 1) (ht0 : 0 ≤ t) (ht1 : t ≤ 1) :
    0 ≤ m * t ∧ m * t ≤ m ∧ m * t ≤ 1 :=
  ⟨mul_nonneg hm0 ht0, mul_le_of_le_one_right hm0 ht1,
    le_trans (mul_le_of_le_one_right hm0 ht1) hm1⟩

lemma Vec3.ext3 (a b : Vec3) (hx : a.x = b.x) (hy : a.y = b.y) (hz : a.z = b.z) :
    a = b := by
  cases a
  cases b
  cases hx
  cases hy
  cases hz
  rfl

lemma dot3_zero_left (v : Vec3) : dot3 ⟨0, 0, 0⟩ v = 0 := by
  unfold dot3
  show 0 * v.x + 0 * v.y + 0 * v.z = 0
  ring

lemma get_dist_cex (p : Vec3) : get_dist cexOps cexScene p = (1 / 100, 1) := by
  unfold get_dist get_dist_list cexScene
  show List.foldl _ (MAX_DIST, -1) (List.take 1 [cexSphere]) = _
  rw [show List.take 1 [cexSphere] = [cexSphere] from rfl]
  rw [List.foldl_cons, List.foldl_nil]
  dsimp only
  have hsd : sd_primitive cexOps p cexSphere = 1 / 100 := by
    unfold sd_primitive cexSphere
    dsimp only
    unfold sd_sphere length3 cexOps
    dsimp only
    norm_num
  rw [hsd]
  rw [if_pos (by norm_num [MAX_DIST])]
  norm_num [cexSphere]

lemma ray_march_loop_cex (ro rd : Vec3) :
    ∀ (n : ℕ) (q mat : ℚ), 0 ≤ q → q + n * (1 / 100) ≤ 100 →
      ray_march_loop cexOps cexScene ro rd n (q, mat) =
        ((q + n * (1 / 100), if n = 0 then mat else 1), n) := by
  intro n
  induction n with
  | zero =>
    intro q mat h0 h1
    unfold ray_march_loop
    norm_num
  | succ m ih =>
    intro q mat h0 h1
    unfold ray_march_loop
    simp only [get_dist_cex]
    simp only [show |(1 : ℚ) / 100| = 1 / 100 from by norm_num]
    push_cast at h1
    rw [if_neg (by
      rintro (hc | hc)
      · norm_num [SURF_DIST] at hc
      · norm_num [MAX_DIST] at hc
        nlinarith)]
    rw [ih (q + 1 / 100) 1 (by linarith) (by nlinarith)]
    dsimp only
    rw [if_neg (by omega : ¬(m + 1 = 0)), ite_self]
    have harith : q + 1 / 100 + (m : ℚ) * (1 / 100) = q + ((m + 1 : ℕ) : ℚ) * (1 / 100) := by
      push_cast
      ring
    rw [harith]

lemma ray_marchC_cex (ro rd : Vec3) : ray_marchC cexOps cexScene ro rd = ((64 / 25, 1), 256) := by
  unfold ray_marchC MAX_STEPS
  rw [ray_march_loop_cex ro rd 256 0 (-1) le_rfl (by norm_num)]
  norm_num

lemma Vec3.div_x (a : Vec3) (c : ℚ) : (a / c).x = a.x / c := rfl

lemma Vec3.div_y (a : Vec3) (c : ℚ) : (a / c).y = a.y / c := rfl

lemma Vec3.div_z (a : Vec3) (c : ℚ) : (a / c).z = a.z / c := rfl

lemma get_normal_cex (p : Vec3) : get_normal cexOps cexScene p = ⟨0, 0, 0⟩ := by
  unfold get_normal
  simp only [get_dist_cex]
  unfold normalize3
  apply Vec3.ext3 <;>
    simp only [Vec3.div_x, Vec3.div_y, Vec3.div_z] <;>
      norm_num

lemma get_material_color_metal (p : Vec3) : get_material_color 1 p = ⟨0.8, 0.85, 0.9⟩ := by
  unfold get_material_color
  rw [if_neg (by norm_num [MAT_GROUND]), if_pos (by norm_num [MAT_METAL])]

lemma renderStepC_cex (st : RenderState) (hb : st.broke = false) :
    renderStepC cexOps cexScene st =
      ({ ro := st.ro + st.rd * ((64 : ℚ) / 25), rd := st.rd, color := st.color,
         mask := st.mask * (0.8 : ℚ), result := ((64 : ℚ) / 25, 1),
         broke := decide (dot3 (st.mask * (0.8 : ℚ)) (st.mask * (0.8 : ℚ)) < 0.001) },
        518) := by
  unfold renderStepC
  rw [if_neg (by rw [hb]; exact Bool.false_ne_true)]
  simp only [ray_marchC_cex, get_normal_cex, get_material_color_metal]
  rw [if_pos (by norm_num [MAX_DIST] : ((64 : ℚ) / 25, (1 : ℚ)).1 < MAX_DIST)]
  rw [if_pos (by norm_num [MAT_METAL] : ((64 : ℚ) / 25, (1 : ℚ)).2 = MAT_METAL)]
  congr 1
  congr 1
  · apply Vec3.ext3 <;>
      simp only [Vec3.add_x, Vec3.add_y, Vec3.add_z,
        Vec3.smulr_x, Vec3.smulr_y, Vec3.smulr_z] <;>
      norm_num
  · unfold reflect
    rw [dot3_zero_left]
    apply Vec3.ext3 <;>
      simp only [Vec3.sub_x, Vec3.sub_y, Vec3.sub_z,
        Vec3.smull_x, Vec3.smull_y, Vec3.smull_z] <;>
      norm_num
  · rw [dot3_zero_left]
    rw [max_self]
    apply Vec3.ext3 <;>
      simp only [Vec3.add_x, Vec3.add_y, Vec3.add_z,
        Vec3.mul_x, Vec3.mul_y, Vec3.mul_z,
        Vec3.smulr_x, Vec3.smulr_y, Vec3.smulr_z] <;>
      ring

lemma dot3_smulr (v w : Vec3) (c : ℚ) : dot3 (v * c) (w * c) = dot3 v w * c ^ 2 := by
  unfold dot3
  simp only [Vec3.smulr_x, Vec3.smulr_y, Vec3.smulr_z]
  ring

lemma renderLoopC_succ (ops : Ops) (s : Scene) (n : ℕ) (st : RenderState) :
    renderLoopC ops s (n + 1) st =
      ((renderLoopC ops s n (renderStepC ops s st).1).1,
       (renderStepC ops s st).2 + (renderLoopC ops s n (renderStepC ops s st).1).2) := rfl

lemma render_count_eq (ops : Ops) (s : Scene) (ro rd : Vec3) :
    (render ops s ro rd).2 =
      (renderLoopC ops s MAX_BOUNCES
        { ro := ro, rd := rd, color := ⟨0, 0, 0⟩, mask := ⟨1, 1, 1⟩,
          result := (0, -1), broke := false }).2 := rfl

lemma renderLoopC_cex_count (n : ℕ) :
    ∀ st : RenderState, st.broke = false →
      (∀ k : ℕ, k < n → ¬ (dot3 st.mask st.mask * ((0.8 : ℚ)) ^ (2 * k + 2) < 0.001)) →
      (renderLoopC cexOps cexScene n st).2 = n * 518 := by
  induction n with
  | zero =>
    intro st hb hnb
    rfl
  | succ m ih =>
    intro st hb hnb
    have hstep := renderStepC_cex st hb
    have hmask : dot3 (st.mask * (0.8 : ℚ)) (st.mask * (0.8 : ℚ))
        = dot3 st.mask st.mask * (0.8 : ℚ) ^ 2 := dot3_smulr _ _ _
    have h0 := hnb 0 (by omega)
    rw [show 2 * 0 + 2 = 2 from rfl] at h0
    have hb1 : (decide (dot3 (st.mask * (0.8 : ℚ)) (st.mask * (0.8 : ℚ)) < 0.001)) = false := by
      rw [decide_eq_false_iff_not, hmask]
      exact h0
    have hnb1 : ∀ k : ℕ, k < m →
        ¬ (dot3 (st.mask * (0.8 : ℚ)) (st.mask * (0.8 : ℚ)) * (0.8 : ℚ) ^ (2 * k + 2) < 0.001) := by
      intro k hk
      rw [hmask]
      have heq : dot3 st.mask st.mask * (0.8 : ℚ) ^ 2 * (0.8 : ℚ) ^ (2 * k + 2)
          = dot3 st.mask st.mask * (0.8 : ℚ) ^ (2 * (k + 1) + 2) := by ring
      rw [heq]
      exact hnb (k + 1) (by omega)
    rw [renderLoopC_succ, hstep]
    dsimp only
    rw [ih { ro := st.ro + st.rd * ((64 : ℚ) / 25), rd := st.rd, color := st.color,
             mask := st.mask * (0.8 : ℚ), result := ((64 : ℚ) / 25, 1),
             broke := decide (dot3 (st.mask * (0.8 : ℚ)) (st.mask * (0.8 : ℚ)) < 0.001) }
          hb1 hnb1]
    omega

end WGSL

-- ============ Claim theorems ============

/-- C1: the buffer `buildSceneData` returns has `32 + 16 * 48 = 800` bytes,
not `32 + 16 * 64 = 1056`, and the record written for a primitive consists
of only 12 four-byte words (kind, materialId, two zero words, center.xyz,
param0, params1); no words 12-15 holding `params2` exist, contradicting
the claimed 64-byte record layout (and the repository README and the WGSL
`Primitive` struct, which both use four 16-byte groups). -/
theorem c1_record_layout_is_48_bytes_not_64 :
    (JS.buildSceneData [samplePrim]).length * 4 = JS.SCENE_SIZE ∧
    JS.SCENE_SIZE = 800 ∧
    800 ≠ 32 + 16 * 64 ∧
    JS.PRIMITIVE_SIZE = 48 ∧
    JS.recordWords (JS.buildSceneData [samplePrim]) 0 =
      [0, 1, 0, 0, 10, 20, 30, 40, 50, 60, 70, 80] := by
  refine ⟨?_, by decide, by decide, by decide, ?_⟩
  · rw [JS.length_buildSceneData]; decide
  · decide

/-- C2: the encoder drops `params2` entirely: two distinct primitives that
differ only in `params2` produce identical buffers, so no decoder of the
buffer can reproduce `params2` bit-exactly and the claimed round-trip
fails for any list containing `roundtripPrim`. -/
theorem c2_roundtrip_loses_params2 :
    JS.buildSceneData [roundtripPrim] = JS.buildSceneData [roundtripPrimZ] ∧
    roundtripPrim ≠ roundtripPrimZ := by
  constructor
  · decide
  · decide

/-- C3: the count header word is `min length MAX_PRIMS`; record slot `i`
holds the encoding of primitive `i` exactly when `i < min length
MAX_PRIMS` and stays zero otherwise; and primitives beyond capacity have
no effect at all on the buffer (`buildSceneData` of the list equals
`buildSceneData` of its first `MAX_PRIMS` entries), with no error
reported: the encoder is total. -/
theorem c3_truncation (primitives : List JS.Primitive) :
    JS.wordAt (JS.buildSceneData primitives) 0 = min primitives.length JS.MAX_PRIMS ∧
    (∀ i, i < JS.MAX_PRIMS →
      JS.recordWords (JS.buildSceneData primitives) i =
        if i < min primitives.length JS.MAX_PRIMS
        then JS.primRecord (primitives.getD i JS.defaultPrimitive)
        else JS.zeroRecord) ∧
    JS.buildSceneData primitives = JS.buildSceneData (primitives.take JS.MAX_PRIMS) := by
  refine ⟨?_, ?_, ?_⟩
  · rw [JS.buildSceneData_eq]; rfl
  · intro i hi
    rw [JS.recordWords_buildSceneData primitives i hi]
    rfl
  · have hc : min (primitives.take JS.MAX_PRIMS).length JS.MAX_PRIMS =
        min primitives.length JS.MAX_PRIMS := by
      rw [List.length_take]
      omega
    rw [JS.buildSceneData_eq, JS.buildSceneData_eq, hc]
    congr 1
    congr 1
    apply List.map_congr_left
    intro i hi
    have hi16 : i < JS.MAX_PRIMS := List.mem_range.mp hi
    unfold JS.slot
    split
    · rw [getD_take primitives JS.MAX_PRIMS i JS.defaultPrimitive hi16]
    · rfl

/-- Witness for C3 at a concrete two-element list and slot index 5. -/
theorem c3_truncation_witness :
    JS.wordAt (JS.buildSceneData [samplePrim, roundtripPrim]) 0 =
      min (List.length [samplePrim, roundtripPrim]) JS.MAX_PRIMS ∧
    JS.recordWords (JS.buildSceneData [samplePrim, roundtripPrim]) 5 =
      (if 5 < min (List.length [samplePrim, roundtripPrim]) JS.MAX_PRIMS
       then JS.primRecord (List.getD [samplePrim, roundtripPrim] 5 JS.defaultPrimitive)
       else JS.zeroRecord) ∧
    JS.buildSceneData [samplePrim, roundtripPrim] =
      JS.buildSceneData (List.take JS.MAX_PRIMS [samplePrim, roundtripPrim]) :=
  ⟨(c3_truncation _).1, (c3_truncation _).2.1 5 (by decide), (c3_truncation _).2.2⟩

/-- C9: every word of the buffer outside the count word and the written
records is zero: the seven header padding words are zero, every record
slot at index at least `min length MAX_PRIMS` is the zero record, and
the buffer is exactly 200 words long. -/
theorem c9_unwritten_words_zero (primitives : List JS.Primitive) :
    (∀ j, 1 ≤ j → j < 8 → JS.wordAt (JS.buildSceneData primitives) j = 0) ∧
    (∀ i, min primitives.length JS.MAX_PRIMS ≤ i → i < JS.MAX_PRIMS →
      JS.recordWords (JS.buildSceneData primitives) i = JS.zeroRecord) ∧
    (JS.buildSceneData primitives).length = 200 := by
  refine ⟨?_, ?_, JS.length_buildSceneData primitives⟩
  · intro j h1 h8
    rw [JS.buildSceneData_eq]
    unfold JS.wordAt
    rw [List.getD_append _ _ _ _ (by simp; omega)]
    interval_cases j <;> rfl
  · intro i hlo hhi
    rw [JS.recordWords_buildSceneData primitives i hhi]
    unfold JS.slot
    rw [if_neg (by omega)]

/-- Witness for C9 at a concrete list, header word 3 and slot 7. -/
theorem c9_unwritten_words_zero_witness :
    JS.wordAt (JS.buildSceneData [samplePrim, roundtripPrim]) 3 = 0 ∧
    JS.recordWords (JS.buildSceneData [samplePrim, roundtripPrim]) 7 = JS.zeroRecord ∧
    (JS.buildSceneData [samplePrim, roundtripPrim]).length = 200 :=
  ⟨(c9_unwritten_words_zero _).1 3 (by decide) (by decide),
   (c9_unwritten_words_zero _).2.1 7 (by decide) (by decide),
   (c9_unwritten_words_zero _).2.2⟩

/-- C4 (amended): the full per-pixel evaluation performs at most
`MAX_BOUNCES * (2 * MAX_STEPS + 6) = 8288` scene-distance evaluations:
each of the up-to-16 bounces runs a primary ray march of at most 256
evaluations and, on a hit, six normal-estimation evaluations and a
shadow ray march of at most 256 evaluations. -/
theorem c4_render_eval_bound (ops : WGSL.Ops) (s : WGSL.Scene)
    (ro rd : WGSL.Vec3) :
    (WGSL.render ops s ro rd).2 ≤ WGSL.MAX_BOUNCES * (2 * WGSL.MAX_STEPS + 6) := by
  unfold WGSL.render
  dsimp only
  exact WGSL.renderLoopC_count_le ops s WGSL.MAX_BOUNCES _

open WGSL in
/-- Claim C4 is violated as stated: a concrete pixel evaluation performs
8288 scene-distance evaluations, more than `MAX_STEPS * MAX_BOUNCES =
4096`: every bounce hits the metal sphere after a full 256-step primary
march (the step budget is exhausted with the traveled distance still
below `MAX_DIST`, which `render` treats as a hit), and adds six normal
evaluations plus a 256-step shadow march, so the sixteen bounces exceed
the claimed bound. -/
theorem c4_render_eval_bound_violated :
    (render cexOps cexScene ⟨0, 0, 5⟩ ⟨0, 0, -1⟩).2 = 8288 ∧
    MAX_STEPS * MAX_BOUNCES < 8288 := by
  constructor
  · have hnb : ∀ k : ℕ, k < MAX_BOUNCES →
        ¬ (dot3 (⟨1, 1, 1⟩ : Vec3) ⟨1, 1, 1⟩ * (0.8 : ℚ) ^ (2 * k + 2) < 0.001) := by
      intro k hk hlt
      have hdot : dot3 (⟨1, 1, 1⟩ : Vec3) ⟨1, 1, 1⟩ = 3 := by
        unfold dot3
        norm_num
      rw [hdot] at hlt
      have hk16 : 2 * k + 2 ≤ 32 := by
        have hk16' : k < 16 := hk
        omega
      have hle : (0.8 : ℚ) ^ 32 ≤ (0.8 : ℚ) ^ (2 * k + 2) :=
        pow_le_pow_of_le_one (by norm_num) (by norm_num) hk16
      have h32 : (0.001 : ℚ) ≤ 3 * (0.8 : ℚ) ^ 32 := by norm_num
      linarith
    rw [render_count_eq]
    rw [renderLoopC_cex_count MAX_BOUNCES
        { ro := ⟨0, 0, 5⟩, rd := ⟨0, 0, -1⟩, color := ⟨0, 0, 0⟩,
          mask := ⟨1, 1, 1⟩, result := (0, -1), broke := false }
        rfl hnb]
    rfl
  · decide

namespace WGSL

/-- Claim C5 (amended): `get_dist` equals the spec-side description
`get_dist_minSpec` on the scanned prefix: when some scanned primitive
is strictly closer than `MAX_DIST`, it returns the minimum distance
together with the material of the first (lowest-index) primitive
attaining it - so ties resolve to the lower index - and otherwise it
returns `(MAX_DIST, -1)` even if every primitive is at distance at
least `MAX_DIST`. -/
theorem c5_get_dist_is_first_minimizer (ops : Ops) (s : Scene) (p : Vec3) :
    get_dist ops s p = get_dist_minSpec ops (s.primitives.take s.count) p := by
  unfold get_dist
  exact get_dist_list_eq_minSpec ops (s.primitives.take s.count) p

/-- Claim C5 is violated as literally stated: in a scene whose single
scanned primitive (material 4) lies at distance 200, `get_dist` does
not return the minimum distance 200 with that material, but the
initial running best `(MAX_DIST, -1) = (100, -1)`, because the scan
only replaces the running best on strict improvement below
`MAX_DIST`. -/
theorem c5_first_minimizer_violated :
    sd_primitive cex5Ops ⟨0, 0, 0⟩ cex5Prim = 200 ∧
    cex5Scene.count = 1 ∧
    cex5Prim.materialId = 4 ∧
    get_dist cex5Ops cex5Scene ⟨0, 0, 0⟩ = (MAX_DIST, -1) ∧
    get_dist cex5Ops cex5Scene ⟨0, 0, 0⟩ ≠ (200, 4) := by
  refine ⟨by with_unfolding_all decide, by rfl, by rfl, by with_unfolding_all decide,
    by with_unfolding_all decide⟩

/-- Claim C6: when a non-broken bounce hits a primitive whose material
id is neither Metal nor Glass nor Water, the step adds
`mask * albedo * (0.2 + diffuse * shadow * 0.8)` to the color
accumulator, zeroes the mask, sets the broken flag, and a broken state
is a fixed point of the bounce loop with no further scene evaluations,
so no further bounces occur on that path. -/
theorem c6_diffuse_hit_terminates (ops : Ops) (s : Scene) (st : RenderState)
    (hb : st.broke = false)
    (hhit : (hitResult ops s st).1 < MAX_DIST)
    (h1 : (hitResult ops s st).2 ≠ MAT_METAL)
    (h2 : (hitResult ops s st).2 ≠ MAT_GLASS)
    (h3 : (hitResult ops s st).2 ≠ MAT_WATER) :
    renderStepC ops s st =
      ({ st with
          color := st.color + st.mask * hitAlbedo ops s st *
            (0.2 + hitDiffuse ops s st * hitShadow ops s st * 0.8)
          mask := ⟨0, 0, 0⟩
          result := hitResult ops s st
          broke := true },
        (ray_marchC ops s st.ro st.rd).2 + 6 + (shadowMarch ops s st).2) ∧
    (∀ (n : Nat) (st2 : RenderState), st2.broke = true →
      renderLoopC ops s n st2 = (st2, 0)) := by
  refine ⟨?_, renderLoopC_broke ops s⟩
  unfold hitResult at hhit h1 h2 h3
  unfold renderStepC
  rw [if_neg (by rw [hb]; exact Bool.false_ne_true)]
  dsimp only
  rw [if_pos hhit]
  rw [if_neg h1, if_neg (not_or.mpr ⟨h2, h3⟩)]
  unfold hitAlbedo hitDiffuse hitShadow shadowMarch shadowOrigin lightDir
    hitNormal hitPos hitResult lightPos
  rfl

/-- Witness for C6: a pixel whose camera ray immediately hits a
ground-material primitive. -/
theorem c6_diffuse_hit_terminates_witness :
    (renderStepC c6Ops c6Scene c6State).1.mask = ⟨0, 0, 0⟩ ∧
    (renderStepC c6Ops c6Scene c6State).1.broke = true ∧
    (renderStepC c6Ops c6Scene c6State).1.color =
      c6State.color + c6State.mask * hitAlbedo c6Ops c6Scene c6State *
        (0.2 + hitDiffuse c6Ops c6Scene c6State * hitShadow c6Ops c6Scene c6State * 0.8) ∧
    renderLoopC c6Ops c6Scene 7 (renderStepC c6Ops c6Scene c6State).1 =
      ((renderStepC c6Ops c6Scene c6State).1, 0) := by
  have h := c6_diffuse_hit_terminates c6Ops c6Scene c6State rfl
    (by with_unfolding_all decide) (by with_unfolding_all decide)
    (by with_unfolding_all decide) (by with_unfolding_all decide)
  refine ⟨?_, ?_, ?_, ?_⟩
  · rw [h.1]
  · rw [h.1]
  · rw [h.1]
  · exact h.2 7 (renderStepC c6Ops c6Scene c6State).1 (by rw [h.1])

/-- Claim C7: at normal incidence the Schlick Fresnel term equals
`r0 = ((1 - ratio) / (1 + ratio))^2` exactly, for every
index-of-refraction ratio. -/
theorem c7_fresnel_normal_incidence (ior_ratio : ℚ) :
    fresnel 1 ior_ratio = ((1 - ior_ratio) / (1 + ior_ratio)) ^ 2 := by
  unfold fresnel
  ring

/-- Claim C8: a primitive whose kind is not one of the seven handled
kinds gets the sentinel distance `1e6` from `sd_primitive`, and such
primitives never affect `get_dist`: removing them from the scanned
list leaves the result unchanged, because the running minimum starts
at `MAX_DIST = 100` and only ever decreases, so the sentinel is never
selected; no error is raised (the fallback is total). -/
theorem c8_unknown_kind_sentinel :
    (∀ (ops : Ops) (p : Vec3) (prim : Primitive),
        6 < prim.kind → sd_primitive ops p prim = 1000000) ∧
    (∀ (ops : Ops) (l : List Primitive) (p : Vec3),
        get_dist_list ops (l.filter (fun prim => decide (prim.kind ≤ 6))) p =
          get_dist_list ops l p) :=
  ⟨sd_primitive_unknown, get_dist_list_filter_known⟩

/-- Witness for C8 at kind 9 and a two-primitive list. -/
theorem c8_unknown_kind_sentinel_witness :
    sd_primitive c8Ops ⟨1, 2, 3⟩ c8UnknownPrim = 1000000 ∧
    get_dist_list c8Ops
        ([c8UnknownPrim, c8KnownPrim].filter (fun prim => decide (prim.kind ≤ 6)))
        ⟨1, 2, 3⟩ =
      get_dist_list c8Ops [c8UnknownPrim, c8KnownPrim] ⟨1, 2, 3⟩ :=
  ⟨c8_unknown_kind_sentinel.1 c8Ops ⟨1, 2, 3⟩ c8UnknownPrim (by decide),
   c8_unknown_kind_sentinel.2 c8Ops [c8UnknownPrim, c8KnownPrim] ⟨1, 2, 3⟩⟩

/-- Claim C10: one bounce-loop iteration keeps every mask component in
`[0, 1]` and never increases any component: each branch multiplies the
mask componentwise by a factor in `[0, 1]` (0.8 for metal, albedo for
total internal reflection, `(1 - F) * albedo` with the Fresnel term
`F` in `[0, 1]` for refraction) or zeroes it. -/
theorem c10_mask_in_unit_and_monotone (ops : Ops) (s : Scene) (st : RenderState)
    (h : inUnit st.mask) :
    inUnit (renderStepC ops s st).1.mask ∧ le3 (renderStepC ops s st).1.mask st.mask := by
  obtain ⟨hx0, hx1, hy0, hy1, hz0, hz1⟩ := h
  unfold renderStepC
  by_cases hb : st.broke
  · rw [if_pos hb]
    exact ⟨⟨hx0, hx1, hy0, hy1, hz0, hz1⟩, le_refl _, le_refl _, le_refl _⟩
  · rw [if_neg (by rw [Bool.not_eq_true] at hb; rw [hb]; exact Bool.false_ne_true)]
    dsimp only
    by_cases hhit : (ray_marchC ops s st.ro st.rd).1.1 < MAX_DIST
    · rw [if_pos hhit]
      try dsimp only
      by_cases hm : (ray_marchC ops s st.ro st.rd).1.2 = MAT_METAL
      · rw [if_pos hm]
        try dsimp only
        unfold inUnit le3
        simp only [Vec3.smulr_x, Vec3.smulr_y, Vec3.smulr_z]
        have ux := unit_mul_le st.mask.x 0.8 hx0 hx1 (by norm_num) (by norm_num)
        have uy := unit_mul_le st.mask.y 0.8 hy0 hy1 (by norm_num) (by norm_num)
        have uz := unit_mul_le st.mask.z 0.8 hz0 hz1 (by norm_num) (by norm_num)
        exact ⟨⟨ux.1, ux.2.2, uy.1, uy.2.2, uz.1, uz.2.2⟩, ux.2.1, uy.2.1, uz.2.1⟩
      · rw [if_neg hm]
        by_cases hgw : (ray_marchC ops s st.ro st.rd).1.2 = MAT_GLASS ∨
            (ray_marchC ops s st.ro st.rd).1.2 = MAT_WATER
        · rw [if_pos hgw]
          try dsimp only
          have halb := get_material_color_inUnit
            (ray_marchC ops s st.ro st.rd).1.2
            (st.ro + st.rd * (ray_marchC ops s st.ro st.rd).1.1)
          set hp := st.ro + st.rd * (ray_marchC ops s st.ro st.rd).1.1 with hhp
          set normal := get_normal ops s hp with hnormal
          set A := get_material_color (ray_marchC ops s st.ro st.rd).1.2 hp with hA
          obtain ⟨ha1, ha2, ha3, ha4, ha5, ha6⟩ := halb
          set n3 := if dot3 st.rd normal < 0 then normal else -normal with hn3
          set ior := if (ray_marchC ops s st.ro st.rd).1.2 = MAT_GLASS
            then IOR_GLASS else IOR_WATER with hior
          set ratio := if dot3 st.rd normal < 0
            then IOR_AIR / ior else ior / IOR_AIR with hratio
          set cth := min (-dot3 st.rd n3) 1 with hcth
          have hcos : 0 ≤ cth ∧ cth ≤ 1 := by
            constructor
            · rw [hcth]
              by_cases hent : dot3 st.rd normal < 0
              · rw [hn3, if_pos hent]
                exact le_min (by linarith) (by norm_num)
              · rw [hn3, if_neg hent]
                rw [dot3_neg_right]
                push_neg at hent
                exact le_min (by linarith) (by norm_num)
            · rw [hcth]
              exact min_le_right _ _
          have hr0 : ((1 - ratio) / (1 + ratio)) ^ 2 ≤ 1 := by
            rw [hratio, hior]
            by_cases hent : dot3 st.rd normal < 0 <;>
              by_cases hg : (ray_marchC ops s st.ro st.rd).1.2 = MAT_GLASS
            · rw [if_pos hent, if_pos hg]
              norm_num [IOR_AIR, IOR_GLASS]
            · rw [if_pos hent, if_neg hg]
              norm_num [IOR_AIR, IOR_WATER]
            · rw [if_neg hent, if_pos hg]
              norm_num [IOR_AIR, IOR_GLASS]
            · rw [if_neg hent, if_neg hg]
              norm_num [IOR_AIR, IOR_WATER]
          have hF := fresnel_bounds cth ratio hcos.1 hcos.2 hr0
          obtain ⟨hF0, hF1⟩ := hF
          set F := fresnel cth ratio with hFdef
          set rdp := refract_ray ops st.rd n3 ratio with hrdp
          by_cases htir : dot3 rdp rdp < 0.0001
          · rw [if_pos htir]
            try dsimp only
            unfold inUnit le3
            simp only [Vec3.mul_x, Vec3.mul_y, Vec3.mul_z]
            have ux := unit_mul_le st.mask.x A.x hx0 hx1 ha1 ha2
            have uy := unit_mul_le st.mask.y A.y hy0 hy1 ha3 ha4
            have uz := unit_mul_le st.mask.z A.z hz0 hz1 ha5 ha6
            exact ⟨⟨ux.1, ux.2.2, uy.1, uy.2.2, uz.1, uz.2.2⟩, ux.2.1, uy.2.1, uz.2.1⟩
          · rw [if_neg htir]
            try dsimp only
            unfold inUnit le3
            simp only [Vec3.mul_x, Vec3.mul_y, Vec3.mul_z,
              Vec3.smull_x, Vec3.smull_y, Vec3.smull_z]
            have htx : 0 ≤ (1 - F) * A.x ∧ (1 - F) * A.x ≤ 1 :=
              ⟨mul_nonneg (by linarith) ha1, by nlinarith⟩
            have hty : 0 ≤ (1 - F) * A.y ∧ (1 - F) * A.y ≤ 1 :=
              ⟨mul_nonneg (by linarith) ha3, by nlinarith⟩
            have htz : 0 ≤ (1 - F) * A.z ∧ (1 - F) * A.z ≤ 1 :=
              ⟨mul_nonneg (by linarith) ha5, by nlinarith⟩
            have ux := unit_mul_le st.mask.x ((1 - F) * A.x) hx0 hx1 htx.1 htx.2
            have uy := unit_mul_le st.mask.y ((1 - F) * A.y) hy0 hy1 hty.1 hty.2
            have uz := unit_mul_le st.mask.z ((1 - F) * A.z) hz0 hz1 htz.1 htz.2
            exact ⟨⟨ux.1, ux.2.2, uy.1, uy.2.2, uz.1, uz.2.2⟩, ux.2.1, uy.2.1, uz.2.1⟩
        · rw [if_neg hgw]
          try dsimp only
          unfold inUnit le3
          norm_num
          exact ⟨hx0, hy0, hz0⟩
    · rw [if_neg hhit]
      try dsimp only
      unfold inUnit le3
      norm_num
      exact ⟨hx0, hy0, hz0⟩

/-- Witness for C10: a state with mask `(1, 1/2, 0)` hitting a ground
primitive. -/
theorem c10_mask_in_unit_and_monotone_witness :
    inUnit c10State.mask ∧
    inUnit (renderStepC c10Ops c10Scene c10State).1.mask ∧
    le3 (renderStepC c10Ops c10Scene c10State).1.mask c10State.mask := by
  have hm : inUnit c10State.mask := by
    unfold inUnit c10State
    norm_num
  have h := c10_mask_in_unit_and_monotone c10Ops c10Scene c10State hm
  exact ⟨hm, h.1, h.2⟩

end WGSL
